import Mathlib

/-!
Verification development for the Ethiopia sales forecasting repository
(`src/data_generator.py`, `src/forecasting_model.py`, `src/insight_engine.py`,
`backend/model.py`).

The Python code is shallowly embedded: money amounts are rationals (`ℚ`),
pandas dataframes are lists of records, dates are days since 1970-01-01
(`Nat`), and the two seeded pseudo-random generators (`numpy.random` and
Python's `random`) are explicit deterministic state machines.  External
library calls (Prophet, the PRNG cores) are modelled by stand-ins whose
exact values are irrelevant to the claims proved; each stand-in is
documented at its definition site.
-/

namespace SalesSpec

/-! ## Rounding to two decimal places

`round(x, 2)` from Python.  We round over `ℚ` with ties going up
(Mathlib's `round`); CPython's float-based banker's rounding differs only
on exact half-cent ties, which none of the statements below depend on. -/

/-- Two-decimal rounding: `round(x, 2)`. -/
def round2 (q : ℚ) : ℚ := (round (100 * q) : ℤ) / 100

/-! ## Grouped summation (`df.groupby(key)[col].sum()`)

pandas `groupby` with the default `sort=True` returns one row per distinct
key, keys in ascending order, with the column summed per key.  We embed it
as a fold inserting into an association list kept sorted by key. -/

/-- Insert `(k, v)` into a key-sorted association list, adding `v` to the
entry for `k` when one exists. -/
def insertAdd {K : Type} [LinearOrder K] (k : K) (v : ℚ) :
    List (K × ℚ) → List (K × ℚ)
  | [] => [(k, v)]
  | (k', v') :: rest =>
    if k = k' then (k', v' + v) :: rest
    else if k < k' then (k, v) :: (k', v') :: rest
    else (k', v') :: insertAdd k v rest

/-- Embeds `groupby(key).sum()` over a list of `(key, value)` rows. -/
def groupSum {K : Type} [LinearOrder K] (l : List (K × ℚ)) : List (K × ℚ) :=
  l.foldl (fun acc p => insertAdd p.1 p.2 acc) []

/-! ## Calendar (`pandas` timestamps)

Dates are days since 1970-01-01.  `civilFromDays` is the standard
days-to-Gregorian conversion (valid for non-negative day numbers, i.e.
dates from 1970 on, which covers the generator's 2020–2024 range). -/

/-- Gregorian `(year, month, day)` of a day count since 1970-01-01. -/
def civilFromDays (z : Nat) : Nat × Nat × Nat :=
  let z' := z + 719468
  let era := z' / 146097
  let doe := z' % 146097
  let yoe := (doe - doe / 1460 + doe / 36524 - doe / 146096) / 365
  let y := yoe + era * 400
  let doy := doe - (365 * yoe + yoe / 4 - yoe / 100)
  let mp := (5 * doy + 2) / 153
  let d := doy - (153 * mp + 2) / 5 + 1
  let m := if mp < 10 then mp + 3 else mp - 9
  (if m ≤ 2 then y + 1 else y, m, d)

/-- Month (1–12) of an epoch day. -/
def monthOf (z : Nat) : Nat := (civilFromDays z).2.1

/-- Day of month of an epoch day. -/
def dayOf (z : Nat) : Nat := (civilFromDays z).2.2

/-- pandas `dayofweek` (Monday = 0 … Sunday = 6); 1970-01-01 was a
Thursday (= 3). -/
def dayOfWeek (z : Nat) : Nat := (z + 3) % 7

/-- Year-month period index (`date.dt.to_period('M')`), totally ordered
chronologically. -/
def monthPeriod (z : Nat) : Nat :=
  (civilFromDays z).1 * 12 + monthOf z

/-! ## `EthiopiaSalesDataGenerator` (src/src/data_generator.py)

The two seeded random sources (`numpy.random` after `np.random.seed(seed)`
and Python's `random` after `random.seed(seed)`) are global deterministic
state machines.  Their cores (Mersenne Twister) are modelled by a
linear-congruential stand-in: every claim proved below is independent of
the particular deterministic sequence the cores produce. -/

/-- Deterministic PRNG core stand-in (for the Mersenne Twister step). -/
def lcgNext (s : Nat) : Nat :=
  (6364136223846793005 * s + 1442695040888963407) % (2 ^ 64)

/-- Embeds `np.random.seed(seed)`: the numpy global state becomes a deterministic
function of the seed alone. -/
def np_seed (seed : Nat) : Nat := lcgNext seed

/-- Embeds `random.seed(seed)`: the CPython global state becomes a deterministic
function of the seed alone. -/
def py_seed (seed : Nat) : Nat := lcgNext (seed + 1)

/-- Embeds `random.randint(lo, hi)` (inclusive bounds), consuming the CPython
global state. -/
def py_randint (lo hi s : Nat) : Nat × Nat :=
  let s' := lcgNext s
  (lo + s' % (hi + 1 - lo), s')

/-- Embeds `random.choice(l)`, consuming the CPython global state. -/
def py_choice (l : List String) (s : Nat) : String × Nat :=
  let s' := lcgNext s
  (l.getD (s' % l.length) "", s')

/-- Embeds `np.random.normal(1, 0.15)` draw stand-in: a deterministic rational
draw near 1, consuming the numpy global state.  The Gaussian has full
support, so the per-transaction claims below quantify over an arbitrary
rational noised amount instead of this particular stream. -/
def np_normal (s : Nat) : ℚ × Nat :=
  let s' := lcgNext s
  (1 + ((s' % 301 : Nat) : ℚ) / 1000 - 15 / 100, s')

/-- The combined global PRNG state (numpy plus CPython `random`). -/
structure PyGlobals where
  npState : Nat
  pyState : Nat
deriving DecidableEq

/-- One generated transaction row. -/
structure Transaction where
  transaction_id : Nat
  date : Nat
  region : String
  product_category : String
  customer_segment : String
  quantity : Nat
  unit_price : ℚ
  total_sales : ℚ
  currency : String
deriving DecidableEq

def regions : List String :=
  ["Addis Ababa", "Oromia", "Amhara", "Tigray", "SNNPR", "Somali", "Afar",
   "Dire Dawa"]

def product_categories : List String :=
  ["Coffee", "Teff", "Electronics", "Textiles", "Spices", "Livestock",
   "Vegetables", "Injera", "Leather Goods", "Cereals"]

def customer_segments : List String :=
  ["Retail", "Wholesale", "Export", "B2B", "Direct Consumer"]

/-- Embeds `base_amounts.get(product, 5000)`. -/
def base_amounts (product : String) : ℚ :=
  if product = "Coffee" then 5000
  else if product = "Teff" then 3000
  else if product = "Electronics" then 15000
  else if product = "Textiles" then 8000
  else if product = "Spices" then 2000
  else if product = "Livestock" then 20000
  else if product = "Vegetables" then 1500
  else if product = "Injera" then 1000
  else if product = "Leather Goods" then 12000
  else if product = "Cereals" then 4000
  else 5000

/-- Embeds `sin(2*pi*month/12)` at whole months, to two decimals.  The exact
transcendental values are irrelevant to every claim proved in this file
(the seasonal factor only feeds the pre-noise amount, which the
per-transaction claims quantify over). -/
def sinMonth (m : Nat) : ℚ :=
  if m = 1 then 1/2 else if m = 2 then 87/100 else if m = 3 then 1
  else if m = 4 then 87/100 else if m = 5 then 1/2 else if m = 6 then 0
  else if m = 7 then -(1/2) else if m = 8 then -(87/100)
  else if m = 9 then -1 else if m = 10 then -(87/100)
  else if m = 11 then -(1/2) else 0

/-- Embeds `add_trend`: annual growth of 10 percent applied daily. -/
def add_trend (base_value : ℚ) (days_from_start : Nat) : ℚ :=
  base_value * (1 + (1/10) / 365 * days_from_start)

/-- Embeds `add_seasonality`: sinusoidal month factor, Ethiopian holiday boosts
and the weekend discount. -/
def add_seasonality (base_value : ℚ) (date : Nat) : ℚ :=
  let m := monthOf date
  let d := dayOf date
  let f0 : ℚ := 1 + (2/10) * sinMonth m
  let f1 : ℚ :=
    if m = 9 ∧ 1 ≤ d ∧ d ≤ 15 then f0 * (3/2)
    else if m = 1 ∧ 7 ≤ d ∧ d ≤ 20 then f0 * (14/10)
    else if m = 9 ∧ 27 ≤ d ∧ d ≤ 30 then f0 * (13/10)
    else if m = 12 then f0 * (16/10)
    else f0
  let f2 : ℚ := if 5 ≤ dayOfWeek date then f1 * (85/100) else f1
  base_value * f2

/-- Embeds `add_noise`: multiplicative draw from the numpy global state. -/
def add_noise (value : ℚ) (npState : Nat) : ℚ × Nat :=
  let (nf, s') := np_normal npState
  (value * nf, s')

/-- Region multiplier applied to the total after the 100 floor. -/
def regionMult (region : String) : ℚ :=
  if region = "Addis Ababa" then 13/10
  else if region = "Oromia" then 11/10
  else if region = "Afar" then 7/10
  else 1

/-- The per-transaction amount/quantity pipeline of
`generate_sales_data`, from the `amount = max(100, amount)` floor on:
given the amount after the noise step (an arbitrary rational, since the
Gaussian noise has full support), returns
`(quantity, unit_price, total_sales)` as recorded in the row. -/
def mkTransaction (region product segment : String) (amountNoised : ℚ) :
    Nat × ℚ × ℚ :=
  let amount1 : ℚ := max 100 amountNoised
  let unit_price : ℚ := base_amounts product / 10
  let quantity0 : Nat := max 1 (⌊amount1 / unit_price⌋).toNat
  let amount2 : ℚ := amount1 * regionMult region
  let aq : ℚ × Nat :=
    if segment = "Wholesale" then (amount2 * (3/2), quantity0 * 2)
    else if segment = "Export" then (amount2 * 2, quantity0 * 3)
    else (amount2, quantity0)
  (aq.2, round2 (aq.1 / (aq.2 : ℚ)), round2 aq.1)

/-- State threaded through the generation loops. -/
structure GenLoopState where
  py : Nat
  np : Nat
  tid : Nat
  rows : List Transaction

/-- One inner-loop iteration of `generate_sales_data`: draw region,
product and segment, build the amount through trend, seasonality and
noise, and append the row. -/
def genOneTransaction (start_date date : Nat) (st : GenLoopState) :
    GenLoopState :=
  let days_from_start := date - start_date
  let (region, py1) := py_choice regions st.py
  let (product, py2) := py_choice product_categories py1
  let (segment, py3) := py_choice customer_segments py2
  let base_amount := base_amounts product
  let amount_t := add_trend base_amount days_from_start
  let amount_s := add_seasonality amount_t date
  let (amount_n, np1) := add_noise amount_s st.np
  let (quantity, unit_price, total_sales) :=
    mkTransaction region product segment amount_n
  let row : Transaction :=
    { transaction_id := st.tid, date := date, region := region,
      product_category := product, customer_segment := segment,
      quantity := quantity, unit_price := unit_price,
      total_sales := total_sales, currency := "ETB" }
  ⟨py3, np1, st.tid + 1, st.rows ++ [row]⟩

/-- One outer-loop day of `generate_sales_data`: 5–20 transactions. -/
def genOneDay (start_date date : Nat) (st : GenLoopState) : GenLoopState :=
  let (num_transactions, py1) := py_randint 5 20 st.py
  (List.range num_transactions).foldl
    (fun acc _ => genOneTransaction start_date date acc)
    ⟨py1, st.np, st.tid, st.rows⟩

/-- Embeds `generate_date_range()`: every calendar day from start to end,
inclusive. -/
def generate_date_range (start_date end_date : Nat) : List Nat :=
  List.range' start_date (end_date + 1 - start_date)

/-- Embeds `generate_sales_data()`, consuming the global PRNG state. -/
def generate_sales_data (start_date end_date : Nat) (g : PyGlobals) :
    List Transaction × PyGlobals :=
  let final :=
    (generate_date_range start_date end_date).foldl
      (fun acc date => genOneDay start_date date acc)
      ⟨g.pyState, g.npState, 1000, []⟩
  (final.rows, ⟨final.np, final.py⟩)

/-- Embeds `EthiopiaSalesDataGenerator(start, end, seed)` followed by
`generate_sales_data()`: the constructor reseeds both global PRNGs from
`seed`, overwriting whatever global state `g` held before. -/
def generatorRun (start_date end_date seed : Nat) (g : PyGlobals) :
    List Transaction × PyGlobals :=
  let _ := g
  let g1 : PyGlobals := ⟨np_seed seed, py_seed seed⟩
  generate_sales_data start_date end_date g1

/-! ## `SalesForecaster` (src/src/forecasting_model.py) -/

/-- Python exception stand-ins for the failure modes exercised below. -/
inductive PyErr where
  | valueError (msg : String)
  | attributeError (msg : String)
  | typeError (msg : String)
deriving DecidableEq

/-- A fitted Prophet model.  Modelled from the spec: Prophet is an
external dependency; its fitted predictor is carried as an opaque-valued
prediction function `ds ↦ yhat`, which is all the state-machine and
metric claims depend on. -/
structure ProphetModel where
  predictFn : Nat → ℚ

/-- Embeds `SalesForecaster` instance state: `self.model`, `self.df_train` and
`self.df_test`, all `None` after `__init__`. -/
structure SalesForecaster where
  model : Option ProphetModel
  df_train : Option (List (Nat × ℚ))
  df_test : Option (List (Nat × ℚ))

/-- Embeds `SalesForecaster.__init__`. -/
def SalesForecaster.mkNew : SalesForecaster := ⟨none, none, none⟩

/-- Embeds `prepare_data`: aggregate daily sales (`groupby(date).sum()`) and
split off the trailing `test_size` days. -/
def SalesForecaster.prepare_data (f : SalesForecaster)
    (df : List Transaction) (test_size : Nat) : SalesForecaster :=
  let df_daily := groupSum (df.map fun t => (t.date, t.total_sales))
  let split_idx := df_daily.length - test_size
  { f with df_train := some (df_daily.take split_idx),
           df_test := some (df_daily.drop split_idx) }

/-- Embeds `train_model`: fits Prophet on `df_train` and stores the model.  The
fit itself is external (Prophet); only the state transition
`model : none → some _` matters to the claims, so the stored predictor is
a stand-in. -/
def SalesForecaster.train_model (f : SalesForecaster) : SalesForecaster :=
  { f with model := some ⟨fun _ => 0⟩ }

/-- Embeds `forecast(periods)`: the one operation guarded by an explicit
trained-state check, raising `ValueError` when `self.model is None`. -/
def SalesForecaster.forecast (f : SalesForecaster) (periods : Nat) :
    Except PyErr (List ℚ) :=
  match f.model with
  | none =>
    .error (.valueError "Model not trained. Call train_model() first.")
  | some m => .ok ((List.range periods).map m.predictFn)

/-- Embeds `np.mean` of a float array; the mean of an empty array is NaN
(`none`). -/
def npMean (l : List ℚ) : Option ℚ :=
  if l.isEmpty then none else some (l.sum / l.length)

/-- Embeds `EvaluationMetrics`.  Non-finite float results (NaN or ±Inf) are
`none`.  `RMSE = sqrt(MSE)` is irrational in general, so the squared
value MSE is recorded; it is non-finite exactly when RMSE is. -/
structure EvaluationMetrics where
  mae : Option ℚ
  mse : Option ℚ
  mape : Option ℚ
  r2 : Option ℚ
deriving DecidableEq

/-- The metric block of `evaluate_model`: MAE, RMSE (recorded as MSE),
MAPE and R².  The source computes
`np.mean(np.abs((y_true - y_pred) / y_true)) * 100` with no guard on zero
true values: any `y_true[i] = 0` makes that term non-finite (±Inf, or NaN
for `0/0`) and hence the mean non-finite, represented as `none`.
`r2_score`'s division by a zero total sum of squares (all-equal
`y_true`) is likewise non-finite. -/
def computeMetrics (y_true y_pred : List ℚ) : EvaluationMetrics :=
  let pairs := y_true.zip y_pred
  let mae := npMean (pairs.map fun p => |p.1 - p.2|)
  let mse := npMean (pairs.map fun p => (p.1 - p.2) ^ 2)
  let mape :=
    if pairs.any (fun p => decide (p.1 = 0)) then none
    else (npMean (pairs.map fun p => |(p.1 - p.2) / p.1|)).map (· * 100)
  let r2 :=
    match npMean y_true with
    | none => none
    | some ybar =>
      let ss_tot := (y_true.map fun y => (y - ybar) ^ 2).sum
      let ss_res := (pairs.map fun p => (p.1 - p.2) ^ 2).sum
      if ss_tot = 0 then none else some (1 - ss_res / ss_tot)
  ⟨mae, mse, mape, r2⟩

/-- Embeds `evaluate_model()`: forecast over the test period, then compute the
metrics on `(y_true, y_pred)`.  The source performs no trained-state
check: with `df_train = None` the `self.df_train.copy()` call fails with
an `AttributeError`, with `df_test = None` the `pd.concat` fails with a
`TypeError`, and with `model = None` the `self.model.predict` call fails
with an `AttributeError` — never with the "Model not trained"
`ValueError` that `forecast` raises. -/
def SalesForecaster.evaluate_model (f : SalesForecaster) :
    Except PyErr EvaluationMetrics :=
  match f.df_train with
  | none => .error (.attributeError "NoneType object has no attribute copy")
  | some _ =>
    match f.df_test with
    | none =>
      .error (.typeError "cannot concatenate object of type NoneType")
    | some te =>
      match f.model with
      | none =>
        .error (.attributeError "NoneType object has no attribute predict")
      | some m =>
        let y_true := te.map Prod.snd
        let y_pred := te.map (fun p => m.predictFn p.1)
        .ok (computeMetrics y_true y_pred)

/-! ## `ForecastingService` (src/backend/model.py) -/

/-- The daily aggregation `df.groupby('date')['total_sales'].sum()` used
by `train_model`, `generate_forecast` and `get_historical_data`. -/
def daily_sales (df : List Transaction) : List (Nat × ℚ) :=
  groupSum (df.map fun t => (t.date, t.total_sales))

/-- The optional-filter step of `generate_forecast`: category filter,
then region filter. -/
def filter_category_region (df : List Transaction)
    (category region : Option String) : List Transaction :=
  let f1 := match category with
    | some c => df.filter (fun t => decide (t.product_category = c))
    | none => df
  match region with
  | some r => f1.filter (fun t => decide (t.region = r))
  | none => f1

/-- The dataframe handed to `temp_model.fit` when a filter is present
(the `df_daily` of `generate_forecast`): the service performs no
empty-filter check before the external fit call. -/
def generate_forecast_fit_input (df : List Transaction)
    (category region : Option String) : List (Nat × ℚ) :=
  daily_sales (filter_category_region df category region)

/-- One raw Prophet forecast row: `ds`, `yhat`, `yhat_lower`,
`yhat_upper`. -/
structure ProphetRow where
  ds : Nat
  yhat : ℚ
  yhat_lower : ℚ
  yhat_upper : ℚ

/-- The payload assembled by `generate_forecast` from the Prophet
forecast frame (`forecast.iloc[-periods:]`, each series rounded to two
decimals). -/
structure ForecastResponse where
  dates : List Nat
  predictions : List ℚ
  lower_bound : List ℚ
  upper_bound : List ℚ

/-- The response-assembly tail of `generate_forecast`. -/
def assemble_forecast_response (forecast : List ProphetRow)
    (periods : Nat) : ForecastResponse :=
  let fut := forecast.drop (forecast.length - periods)
  ⟨fut.map ProphetRow.ds,
   fut.map (fun r => round2 r.yhat),
   fut.map (fun r => round2 r.yhat_lower),
   fut.map (fun r => round2 r.yhat_upper)⟩

/-- Embeds `get_historical_data` response: a plain data payload — the function
has no error path at all. -/
structure HistResponse where
  dates : List Nat
  sales : List ℚ
deriving DecidableEq

/-- Embeds `get_historical_data(start_date, end_date, category)`: filter, group
by date, sum, round.  A filter matching nothing yields `⟨[], []⟩`, an
empty-but-successful response rather than an error. -/
def get_historical_data (df : List Transaction)
    (start_date end_date : Option Nat) (category : Option String) :
    HistResponse :=
  let f1 : List Transaction := match start_date with
    | some s => df.filter (fun t => decide (s ≤ t.date))
    | none => df
  let f2 : List Transaction := match end_date with
    | some e => f1.filter (fun t => decide (t.date ≤ e))
    | none => f1
  let f3 : List Transaction := match category with
    | some c => f2.filter (fun t => decide (t.product_category = c))
    | none => f2
  let daily := groupSum (f3.map fun t => (t.date, t.total_sales))
  ⟨daily.map Prod.fst, daily.map (fun p => round2 p.2)⟩

/-- A one-row sample table (a single Coffee transaction), used as the
concrete input of several counterexamples and witnesses. -/
def sampleCoffeeTable : List Transaction :=
  [{ transaction_id := 1000, date := 18262, region := "Addis Ababa",
     product_category := "Coffee", customer_segment := "Retail",
     quantity := 1, unit_price := 5000, total_sales := 5000,
     currency := "ETB" }]

/-! ## `InsightEngine` (src/src/insight_engine.py) -/

/-- An insight record.  The formatted `description` and `recommendation`
strings carry no information any claim depends on and are omitted. -/
structure Insight where
  category : String
  severity : String
  title : String
deriving DecidableEq

/-- A sales-table row as the insight engine sees it: the raw columns it
reads, plus the `month` column that `analyze_seasonality` writes
(absent — `none` — until written). -/
structure SRow where
  date : Nat
  region : String
  product_category : String
  customer_segment : String
  total_sales : ℚ
  month : Option Nat
deriving DecidableEq

/-- Embeds `pd.to_datetime` on a date column that already holds datetime values
(as every table built by this code does) is the identity; the write to
the column still happens and is modelled as a write. -/
def to_datetime (d : Nat) : Nat := d

/-- The monthly aggregation of `analyze_trends`:
`groupby(date.dt.to_period('M'))['total_sales'].sum()`, in
chronological (period-ascending) order. -/
def monthlySeries (rows : List SRow) : List ℚ :=
  (groupSum (rows.map fun r =>
    (monthPeriod (to_datetime r.date), r.total_sales))).map Prod.snd

/-- Tail of `pct_change() * 100`: each entry relates a value to its
predecessor; a zero previous value makes the float result non-finite
(`none`). -/
def pctTail (prev : ℚ) : List ℚ → List (Option ℚ)
  | [] => []
  | b :: rest =>
    (if prev = 0 then none else some ((b - prev) / prev * 100))
      :: pctTail b rest

/-- Embeds `Series.pct_change() * 100`: the first entry is NaN (`none`). -/
def pctChange100 : List ℚ → List (Option ℚ)
  | [] => []
  | x :: xs => none :: pctTail x xs

/-- Embeds `Series.mean()` with pandas' default NaN skipping; the mean of an
all-NaN or empty series is NaN (`none`). -/
def nanMean (l : List (Option ℚ)) : Option ℚ :=
  let v := l.filterMap id
  if v.isEmpty then none else some (v.sum / v.length)

/-- A float comparison `c < x` where `x` may be NaN: NaN compares
false. -/
def gtNaN (x : Option ℚ) (c : ℚ) : Bool :=
  match x with
  | some v => decide (c < v)
  | none => false

/-- A float comparison `x < c` where `x` may be NaN: NaN compares
false. -/
def ltNaN (x : Option ℚ) (c : ℚ) : Bool :=
  match x with
  | some v => decide (v < c)
  | none => false

/-- Embeds `y + c < x` where either side may be NaN: any NaN compares false. -/
def gtAddNaN (x y : Option ℚ) (c : ℚ) : Bool :=
  match x, y with
  | some a, some b => decide (b + c < a)
  | _, _ => false

/-- The trend insights of `analyze_trends` as a function of the monthly
aggregate series: the `avg_growth > 5` / `avg_growth < -5` if/elif
chain, then the independent accelerating-growth check
(`recent_growth > avg_growth + 5`).  NaN comparisons are false, so an
undefined average emits nothing. -/
def analyze_trends_insights_of (monthly : List ℚ) : List Insight :=
  let growth_rates := pctChange100 monthly
  let avg_growth := nanMean growth_rates
  let recent_growth := nanMean (growth_rates.drop (growth_rates.length - 3))
  let first :=
    if gtNaN avg_growth 5 then
      [⟨"Growth", "positive", "Strong Overall Growth"⟩]
    else if ltNaN avg_growth (-5) then
      [⟨"Growth", "warning", "Declining Sales Trend"⟩]
    else []
  let accel :=
    if gtAddNaN recent_growth avg_growth 5 then
      [⟨"Growth", "positive", "Accelerating Growth"⟩]
    else []
  first ++ accel

/-- The insight list produced by `analyze_trends` on a sales table. -/
def analyze_trends_insights (rows : List SRow) : List Insight :=
  analyze_trends_insights_of (monthlySeries rows)

/-- First entry attaining the maximal summed value (the top pick of the
descending `sort_values`; tie order among equal totals is not fixed by
the source's unstable sort and no claim depends on it). -/
def argmaxSnd (l : List (String × ℚ)) : Option (String × ℚ) :=
  l.foldl (fun acc p =>
    match acc with
    | none => some p
    | some q => if q.2 < p.2 then some p else some q) none

/-- Entry attaining the minimal summed value (the bottom of the
descending `sort_values`). -/
def argminSnd (l : List (String × ℚ)) : Option (String × ℚ) :=
  l.foldl (fun acc p =>
    match acc with
    | none => some p
    | some q => if p.2 < q.2 then some p else some q) none

/-- Embeds `top_revenue / bottom_revenue > 10` over numpy floats: a zero
denominator gives ±Inf (true exactly when the numerator is positive). -/
def ratioGt10 (top bottom : ℚ) : Bool :=
  if bottom = 0 then decide (0 < top) else decide (10 < top / bottom)

/-- Embeds `analyze_products` insights (top performer; underperformer when the
revenue ratio exceeds 10).  The `IndexError` the source would raise on an
empty table is outside every claim and not modelled. -/
def analyze_products_insights (rows : List SRow) : List Insight :=
  let product_sales :=
    groupSum (rows.map fun r => (r.product_category, r.total_sales))
  match argmaxSnd product_sales, argminSnd product_sales with
  | some top, some bottom =>
    ⟨"Products", "positive", top.1 ++ " - Top Performer"⟩ ::
      (if ratioGt10 top.2 bottom.2 then
        [⟨"Products", "warning", bottom.1 ++ " - Underperforming"⟩]
      else [])
  | _, _ => []

/-- Embeds `analyze_regions` insights (both always emitted). -/
def analyze_regions_insights (rows : List SRow) : List Insight :=
  let regional_sales := groupSum (rows.map fun r => (r.region, r.total_sales))
  match argmaxSnd regional_sales, argminSnd regional_sales with
  | some top, some bottom =>
    [⟨"Geography", "positive", top.1 ++ " - Top Regional Market"⟩,
     ⟨"Geography", "warning", bottom.1 ++ " - Growth Opportunity"⟩]
  | _, _ => []

/-- Embeds `analyze_customer_segments` insight. -/
def analyze_customer_segments_insights (rows : List SRow) : List Insight :=
  let segment_sales :=
    groupSum (rows.map fun r => (r.customer_segment, r.total_sales))
  match argmaxSnd segment_sales with
  | some top => [⟨"Customers", "info", top.1 ++ " - Primary Customer Base"⟩]
  | none => []

/-- Embeds `analyze_forecast`: mean of the last 30 actual daily sums vs mean of
the last 30 forecast `yhat` values; nothing without a forecast frame. -/
def analyze_forecast_insights (rows : List SRow)
    (forecast_df : Option (List ℚ)) : List Insight :=
  match forecast_df with
  | none => []
  | some yhat =>
    let dailyVals :=
      (groupSum (rows.map fun r => (r.date, r.total_sales))).map Prod.snd
    let recent_avg := npMean (dailyVals.drop (dailyVals.length - 30))
    let forecast_avg := npMean (yhat.drop (yhat.length - 30))
    let change_pct : Option ℚ :=
      match recent_avg, forecast_avg with
      | some ra, some fa =>
        if ra = 0 then none else some ((fa - ra) / ra * 100)
      | _, _ => none
    if gtNaN change_pct 10 then
      [⟨"Forecast", "positive", "Strong Growth Expected"⟩]
    else if ltNaN change_pct (-10) then
      [⟨"Forecast", "warning", "Sales Decline Expected"⟩]
    else [⟨"Forecast", "info", "Stable Sales Expected"⟩]

/-- The store of live dataframes, heap-modelled so that aliasing and
in-place column writes are observable; a reference is an index into the
store. -/
abbrev DFStore := List (List SRow)

/-- Embeds `InsightEngine` state: a reference to its working copy of the sales
table, the optional forecast series, and the accumulated insights. -/
structure InsightEngine where
  sales_dfRef : Nat
  forecast_df : Option (List ℚ)
  insights : List Insight

/-- Embeds `InsightEngine.__init__(sales_df, forecast_df)`:
`self.sales_df = sales_df.copy()` allocates a fresh frame holding the
same rows; the engine keeps a reference to the copy, never to the
caller's frame. -/
def InsightEngine.construct (store : DFStore) (sales_df : Nat)
    (forecast_df : Option (List ℚ)) : DFStore × InsightEngine :=
  (store ++ [store.getD sales_df []], ⟨store.length, forecast_df, []⟩)

/-- The date-column write of `analyze_trends`:
`self.sales_df['date'] = pd.to_datetime(self.sales_df['date'])`. -/
def dateWrite (rows : List SRow) : List SRow :=
  rows.map fun r => { r with date := to_datetime r.date }

/-- The month-column write of `analyze_seasonality`:
`self.sales_df['month'] = pd.to_datetime(self.sales_df['date']).dt.month`. -/
def monthWrite (rows : List SRow) : List SRow :=
  rows.map fun r => { r with month := some (monthOf (to_datetime r.date)) }

/-- Embeds `analyze_trends`, store-level: writes the coerced date column back to
the working frame, then appends the trend insights. -/
def InsightEngine.analyze_trends (store : DFStore) (e : InsightEngine) :
    DFStore × InsightEngine :=
  let rows := store.getD e.sales_dfRef []
  let rows' := dateWrite rows
  (store.set e.sales_dfRef rows',
   { e with insights := e.insights ++ analyze_trends_insights rows' })

/-- Embeds `analyze_seasonality`, store-level: writes the `month` column into
the working frame and appends the two seasonality insights (whose
peak/low month lists feed only the omitted description strings). -/
def InsightEngine.analyze_seasonality (store : DFStore)
    (e : InsightEngine) : DFStore × InsightEngine :=
  let rows := store.getD e.sales_dfRef []
  let rows' := monthWrite rows
  (store.set e.sales_dfRef rows',
   { e with insights := e.insights ++
      [⟨"Seasonality", "info", "Peak Sales Periods"⟩,
       ⟨"Seasonality", "info", "Low Sales Periods"⟩] })

/-- Embeds `generate_all_insights`: the two column-writing analyses, then the
read-only ones (products, regions, segments, forecast — none of which
writes to `sales_df`). -/
def InsightEngine.generate_all_insights (store : DFStore)
    (e : InsightEngine) : DFStore × InsightEngine :=
  let se1 := InsightEngine.analyze_trends store e
  let se2 := InsightEngine.analyze_seasonality se1.1 se1.2
  let rows := se2.1.getD se2.2.sales_dfRef []
  (se2.1,
   { se2.2 with insights := se2.2.insights ++
      analyze_products_insights rows ++
      analyze_regions_insights rows ++
      analyze_customer_segments_insights rows ++
      analyze_forecast_insights rows se2.2.forecast_df })

/-- A four-month table whose monthly aggregate `[100, 101, 102, 103]` is
strictly increasing but grows only about 1 percent per month. -/
def slowGrowthTable : List SRow :=
  [⟨0, "Addis Ababa", "Coffee", "Retail", 100, none⟩,
   ⟨40, "Addis Ababa", "Coffee", "Retail", 101, none⟩,
   ⟨70, "Addis Ababa", "Coffee", "Retail", 102, none⟩,
   ⟨100, "Addis Ababa", "Coffee", "Retail", 103, none⟩]

/-- A three-month table whose monthly aggregate `[100, 200, 400]` doubles
every month. -/
def strongGrowthTable : List SRow :=
  [⟨0, "Addis Ababa", "Coffee", "Retail", 100, none⟩,
   ⟨40, "Addis Ababa", "Coffee", "Retail", 200, none⟩,
   ⟨70, "Addis Ababa", "Coffee", "Retail", 400, none⟩]

/-- A one-frame store holding a single-row sales table. -/
def sampleStore : DFStore :=
  [[⟨0, "Addis Ababa", "Coffee", "Retail", 100, none⟩]]

/-! ## Lemmas: two-decimal rounding -/

theorem round_mono {a b : ℚ} (h : a ≤ b) : round a ≤ round b := by
  rw [round_eq, round_eq]
  exact Int.floor_mono (by linarith)

theorem round2_mono {a b : ℚ} (h : a ≤ b) : round2 a ≤ round2 b := by
  unfold round2
  have hc : ((round (100 * a) : ℤ) : ℚ) ≤ ((round (100 * b) : ℤ) : ℚ) := by
    exact_mod_cast round_mono (show 100 * a ≤ 100 * b by linarith)
  linarith

theorem abs_round2_sub (q : ℚ) : |round2 q - q| ≤ 1 / 200 := by
  unfold round2
  have h := abs_sub_round (100 * q)
  rw [abs_sub_comm] at h
  have heq : |((round (100 * q) : ℤ) : ℚ) / 100 - q|
      = |((round (100 * q) : ℤ) : ℚ) - 100 * q| / 100 := by
    rw [← abs_of_pos (show (0:ℚ) < 100 by norm_num), ← abs_div]
    congr 1
    field_simp
  rw [heq]
  linarith

/-- An integer lower bound survives two-decimal rounding. -/
theorem round2_ge_int {q : ℚ} {n : ℤ} (h : (n : ℚ) ≤ q) : (n : ℚ) ≤ round2 q := by
  unfold round2
  have hfloor : (100 * n : ℤ) ≤ ⌊(100 : ℚ) * q⌋ := by
    rw [Int.le_floor]; push_cast; linarith
  have hround : ⌊(100 : ℚ) * q⌋ ≤ round (100 * q) := by
    rw [round_eq]; exact Int.floor_mono (by linarith)
  have hcast : ((100 * n : ℤ) : ℚ) ≤ ((round (100 * q) : ℤ) : ℚ) := by
    exact_mod_cast le_trans hfloor hround
  push_cast at hcast
  linarith

/-! ## Lemmas: grouped summation -/

theorem insertAdd_sum_snd {K : Type} [LinearOrder K] (k : K) (v : ℚ)
    (l : List (K × ℚ)) :
    ((insertAdd k v l).map Prod.snd).sum = v + (l.map Prod.snd).sum := by
  induction l with
  | nil => simp [insertAdd]
  | cons hd tl ih =>
    obtain ⟨k', v'⟩ := hd
    by_cases h1 : k = k'
    · simp [insertAdd, h1]; ring
    · by_cases h2 : k < k'
      · simp [insertAdd, h1, h2]
      · simp [insertAdd, h1, h2, ih]; ring

theorem groupSum_foldl_sum_snd {K : Type} [LinearOrder K]
    (l : List (K × ℚ)) :
    ∀ acc : List (K × ℚ),
      (((l.foldl (fun acc p => insertAdd p.1 p.2 acc) acc)).map Prod.snd).sum
        = (l.map Prod.snd).sum + (acc.map Prod.snd).sum := by
  induction l with
  | nil => intro acc; simp
  | cons hd tl ih =>
    intro acc
    simp only [List.foldl_cons, List.map_cons, List.sum_cons]
    rw [ih, insertAdd_sum_snd]
    ring

/-- Grouped summation is a sum-preserving homomorphism. -/
theorem groupSum_sum_snd {K : Type} [LinearOrder K] (l : List (K × ℚ)) :
    ((groupSum l).map Prod.snd).sum = (l.map Prod.snd).sum := by
  unfold groupSum
  rw [groupSum_foldl_sum_snd]
  simp

/-! ## Lemmas: the generated transaction pipeline -/

theorem regionMult_ge (region : String) : (7/10 : ℚ) ≤ regionMult region := by
  unfold regionMult
  split_ifs <;> norm_num

theorem regionMult_pos (region : String) : (0 : ℚ) < regionMult region :=
  lt_of_lt_of_le (by norm_num) (regionMult_ge region)

/-- The recorded `unit_price` is `total/quantity` rounded to cents, so the
product `quantity * unit_price` recovers the pre-rounding amount to within
`(quantity + 1)` half-cents. -/
theorem round2_prod_close (A : ℚ) (q : Nat) (hq : 1 ≤ q) :
    |(q : ℚ) * round2 (A / (q : ℚ)) - round2 A| ≤ ((q : ℚ) + 1) / 200 := by
  have hq0 : (0 : ℚ) < (q : ℚ) := by exact_mod_cast hq
  have h1 := abs_round2_sub (A / (q : ℚ))
  have h2 := abs_round2_sub A
  have key : (q : ℚ) * round2 (A / (q : ℚ)) - A
      = (q : ℚ) * (round2 (A / (q : ℚ)) - A / (q : ℚ)) := by
    field_simp
    ring
  calc |(q : ℚ) * round2 (A / (q : ℚ)) - round2 A|
      ≤ |(q : ℚ) * round2 (A / (q : ℚ)) - A| + |A - round2 A| :=
        abs_sub_le _ _ _
    _ = (q : ℚ) * |round2 (A / (q : ℚ)) - A / (q : ℚ)| + |round2 A - A| := by
        rw [key, abs_mul, abs_of_pos hq0, abs_sub_comm A]
    _ ≤ (q : ℚ) * (1 / 200) + 1 / 200 := by
        have := mul_le_mul_of_nonneg_left h1 hq0.le
        linarith
    _ = ((q : ℚ) + 1) / 200 := by ring

/-- C4 counterexample: a transaction in the Afar region whose noised
amount hits the floor is recorded with `total_sales = 70 < 100` — the
region multiplier `0.7` is applied after the floor and drives the
recorded total below it. -/
theorem afar_transaction_below_floor :
    (mkTransaction "Afar" "Injera" "Retail" 50).2.2 = 70 ∧
      (mkTransaction "Afar" "Injera" "Retail" 50).2.2 < 100 := by
  have h : (mkTransaction "Afar" "Injera" "Retail" 50).2.2 = 70 := by
    simp +decide only [mkTransaction, regionMult, base_amounts]
    norm_num [round2, round_eq, max_def]
  exact ⟨h, by rw [h]; norm_num⟩

/-- C4 (amended): the amount is floored at 100 after the noise step, and
the recorded `total_sales` is bounded below by `70 = 100 * 0.7` — the
floor times the least region multiplier (Afar, `0.7`; segment multipliers
are at least 1) — but not by the floor of 100 itself. -/
theorem total_sales_floor_after_multipliers
    (region product segment : String) (amountNoised : ℚ) :
    (100 : ℚ) ≤ max 100 amountNoised ∧
      (70 : ℚ) ≤ (mkTransaction region product segment amountNoised).2.2 := by
  have hA : (100 : ℚ) ≤ max 100 amountNoised := le_max_left _ _
  have hrm := regionMult_ge region
  have hbase : (70 : ℚ) ≤ max 100 amountNoised * regionMult region := by
    have h1 := mul_le_mul hA hrm (by norm_num)
      (le_trans (by norm_num : (0:ℚ) ≤ 100) hA)
    linarith
  refine ⟨hA, ?_⟩
  simp only [mkTransaction]
  split_ifs with h1 h2 <;> dsimp only
  · have h70 : ((70 : ℤ) : ℚ) ≤ max 100 amountNoised * regionMult region * (3/2) := by
      push_cast; linarith
    exact_mod_cast round2_ge_int h70
  · have h70 : ((70 : ℤ) : ℚ) ≤ max 100 amountNoised * regionMult region * 2 := by
      push_cast; linarith
    exact_mod_cast round2_ge_int h70
  · have h70 : ((70 : ℤ) : ℚ) ≤ max 100 amountNoised * regionMult region := by
      push_cast; linarith
    exact_mod_cast round2_ge_int h70

/-- The generator's output genuinely depends on the global PRNG state
(already the number of transactions in a one-day run differs between two
states), so quantifying over that state in the determinism theorem below
is not vacuous: it is the constructor's reseeding that makes two runs
agree. -/
theorem generate_sales_data_depends_on_state :
    (generate_sales_data 0 0 ⟨0, 0⟩).1.length
      ≠ (generate_sales_data 0 0 ⟨0, 1⟩).1.length := by decide

/-- C5: the generator is deterministic — the constructor reseeds both
global PRNGs from `seed`, so two runs with identical
`(start_date, end_date, seed)` produce identical transaction tables
regardless of the prior global random state. -/
theorem generator_deterministic (start_date end_date seed : Nat)
    (g1 g2 : PyGlobals) :
    (generatorRun start_date end_date seed g1).1
      = (generatorRun start_date end_date seed g2).1 := rfl

/-- C6 counterexample: a Livestock transaction with noised amount 39910
is recorded with `quantity = 19`, `unit_price = 2100.53`,
`total_sales = 39910.00`, while `round(quantity * unit_price, 2)` is
`39910.07` — off by 7 cents, beyond one-cent rounding tolerance. -/
theorem total_sales_roundtrip_counterexample :
    (mkTransaction "Somali" "Livestock" "Retail" 39910).2.2 ≠
      round2 (((mkTransaction "Somali" "Livestock" "Retail" 39910).1 : ℚ) *
        (mkTransaction "Somali" "Livestock" "Retail" 39910).2.1) ∧
    1/100 <
      |(mkTransaction "Somali" "Livestock" "Retail" 39910).2.2 -
        round2 (((mkTransaction "Somali" "Livestock" "Retail" 39910).1 : ℚ) *
          (mkTransaction "Somali" "Livestock" "Retail" 39910).2.1)| := by
  have h : mkTransaction "Somali" "Livestock" "Retail" 39910
      = (19, 210053/100, 39910) := by
    simp +decide only [mkTransaction, regionMult, base_amounts, Prod.mk.injEq]
    norm_num [round2, round_eq, max_def, show Int.toNat 19 = 19 from rfl]
  rw [h]
  have h2 : round2 (((19 : Nat) : ℚ) * (210053/100)) = 3991007/100 := by
    norm_num [round2, round_eq]
  rw [h2]
  constructor
  · norm_num
  · rw [show (39910 : ℚ) - 3991007/100 = -(7/100) by norm_num, abs_neg,
      abs_of_pos (by norm_num : (0:ℚ) < 7/100)]
    norm_num

/-- C6 (amended): every recorded transaction has `quantity >= 1`, and
`quantity * unit_price` recovers `total_sales` to within
`(quantity + 1)/200` — the unit price is the rounded quotient
`round(amount/quantity, 2)`, so the residual scales with `quantity`
rather than staying within a fixed one-cent tolerance. -/
theorem quantity_price_total_consistency
    (region product segment : String) (amountNoised : ℚ) :
    1 ≤ (mkTransaction region product segment amountNoised).1 ∧
    |((mkTransaction region product segment amountNoised).1 : ℚ) *
        (mkTransaction region product segment amountNoised).2.1 -
      (mkTransaction region product segment amountNoised).2.2| ≤
      (((mkTransaction region product segment amountNoised).1 : ℚ) + 1) / 200 := by
  simp only [mkTransaction]
  have hq0 : 1 ≤ max 1 (⌊max 100 amountNoised /
      (base_amounts product / 10)⌋).toNat := le_max_left _ _
  split_ifs with h1 h2 <;> dsimp only <;>
    refine ⟨by omega, round2_prod_close _ _ (by omega)⟩

/-- C1 counterexample: filtering the sample table by the absent category
"Teff" makes `get_historical_data` return an empty-but-successful
response `⟨[], []⟩` — no `EmptyFilterResult` (or any other) error
condition is reported. -/
theorem get_historical_data_empty_filter_ok :
    get_historical_data sampleCoffeeTable none none (some "Teff")
      = ⟨[], []⟩ := by rfl

/-- C1 (amended): when a category or region filter matches no
transactions, `get_historical_data` (whose only filter besides dates is
the category) returns the empty-but-successful response `⟨[], []⟩`, and
`generate_forecast` — on its category path as well as on its distinct
region path — hands the empty daily aggregate straight to the external
library fit; no operation reports an explicit empty-filter error
condition. -/
theorem empty_filter_returns_empty_success (df : List Transaction)
    (c r : String) (hc : ∀ t ∈ df, t.product_category ≠ c)
    (hr : ∀ t ∈ df, t.region ≠ r) :
    get_historical_data df none none (some c) = ⟨[], []⟩ ∧
      generate_forecast_fit_input df (some c) none = [] ∧
      generate_forecast_fit_input df none (some r) = [] := by
  have hfc : df.filter (fun t => decide (t.product_category = c)) = [] := by
    rw [List.filter_eq_nil_iff]
    intro t ht
    simpa using hc t ht
  have hfr : df.filter (fun t => decide (t.region = r)) = [] := by
    rw [List.filter_eq_nil_iff]
    intro t ht
    simpa using hr t ht
  refine ⟨?_, ?_, ?_⟩
  · simp [get_historical_data, hfc, groupSum]
  · simp [generate_forecast_fit_input, filter_category_region, daily_sales,
      hfc, groupSum]
  · simp [generate_forecast_fit_input, filter_category_region, daily_sales,
      hfr, groupSum]

theorem empty_filter_returns_empty_success_witness :
    get_historical_data sampleCoffeeTable none none (some "Teff") = ⟨[], []⟩ ∧
      generate_forecast_fit_input sampleCoffeeTable (some "Teff") none = [] ∧
      generate_forecast_fit_input sampleCoffeeTable none (some "Tigray") = [] :=
  empty_filter_returns_empty_success sampleCoffeeTable "Teff" "Tigray"
    (by decide) (by decide)

/-- C2 counterexample: on an untrained forecaster (data prepared, model
`None`), `evaluate_model` fails with an `AttributeError` from the
unguarded `self.model.predict` call — not with the "model not trained"
`ValueError` the claim describes for both operations. -/
theorem evaluate_model_untrained_attribute_error :
    SalesForecaster.evaluate_model ⟨none, some [(0, 5)], some [(1, 7)]⟩
        = .error (.attributeError "NoneType object has no attribute predict") ∧
      SalesForecaster.evaluate_model ⟨none, some [(0, 5)], some [(1, 7)]⟩
        ≠ .error (.valueError "Model not trained. Call train_model() first.") := by
  constructor
  · rfl
  · simp [SalesForecaster.evaluate_model]

/-- C2 (amended): in the untrained state, `forecast` fails with the
explicit "Model not trained" `ValueError`, while `evaluate_model` —
which performs no trained-state check — also fails, but with an
unguarded `AttributeError`/`TypeError` and never with any `ValueError`. -/
theorem untrained_forecast_and_evaluate_fail (f : SalesForecaster)
    (periods : Nat) (h : f.model = none) :
    f.forecast periods
        = .error (.valueError "Model not trained. Call train_model() first.") ∧
      ∃ e, f.evaluate_model = Except.error e ∧
        ∀ msg, e ≠ PyErr.valueError msg := by
  obtain ⟨m, tr, te⟩ := f
  simp only at h
  subst h
  refine ⟨rfl, ?_⟩
  cases tr with
  | none =>
    exact ⟨_, rfl, fun msg hmsg => PyErr.noConfusion hmsg⟩
  | some tr' =>
    cases te with
    | none => exact ⟨_, rfl, fun msg hmsg => PyErr.noConfusion hmsg⟩
    | some te' => exact ⟨_, rfl, fun msg hmsg => PyErr.noConfusion hmsg⟩

theorem untrained_forecast_and_evaluate_fail_witness :
    SalesForecaster.forecast SalesForecaster.mkNew 90
        = .error (.valueError "Model not trained. Call train_model() first.") ∧
      ∃ e, SalesForecaster.evaluate_model SalesForecaster.mkNew
          = Except.error e ∧ ∀ msg, e ≠ PyErr.valueError msg :=
  untrained_forecast_and_evaluate_fail SalesForecaster.mkNew 90 rfl

/-- The positive direction of the forecaster state machine: after
`prepare_data` and `train_model` (the Trained state), both `forecast`
and `evaluate_model` succeed. -/
theorem trained_forecast_and_evaluate_ok (df : List Transaction)
    (test_size periods : Nat) :
    (∃ v, ((SalesForecaster.mkNew.prepare_data df test_size).train_model).forecast
        periods = .ok v) ∧
      ∃ m, ((SalesForecaster.mkNew.prepare_data df test_size).train_model).evaluate_model
        = .ok m :=
  ⟨⟨_, rfl⟩, ⟨_, rfl⟩⟩

/-- C3: the MAPE computation is not special-cased — a held-out series
with a zero true daily value (`y_true = [0, 100]`, `y_pred = [50, 50]`)
makes the unguarded division `(y_true - y_pred) / y_true` non-finite, and
`evaluate_model` returns metrics whose MAPE is that non-finite value. -/
theorem mape_zero_true_value_not_finite :
    (SalesForecaster.evaluate_model
        ⟨some ⟨fun _ => 50⟩, some [(100, 10)], some [(200, 0), (201, 100)]⟩).map
        EvaluationMetrics.mape = .ok none := by rfl

/-- C7: daily aggregation is a sum-preserving homomorphism — summing the
grouped-by-date series equals summing `total_sales` over all
transactions directly. -/
theorem daily_aggregation_sum_preserving (df : List Transaction) :
    ((daily_sales df).map Prod.snd).sum
      = (df.map Transaction.total_sales).sum := by
  unfold daily_sales
  rw [groupSum_sum_snd]
  simp [Function.comp_def]

/-- C8: if every raw Prophet forecast row satisfies the uncertainty-model
invariant `yhat_lower ≤ yhat ≤ yhat_upper` (the spec's underlying model;
Prophet is external), then every entry of the assembled forecast response
satisfies `lower_bound ≤ prediction ≤ upper_bound` — the service's
two-decimal rounding is monotone and preserves the invariant. -/
theorem forecast_bounds_invariant (forecast : List ProphetRow)
    (periods : Nat)
    (h : ∀ r ∈ forecast, r.yhat_lower ≤ r.yhat ∧ r.yhat ≤ r.yhat_upper)
    (i : Nat)
    (hi : i < (assemble_forecast_response forecast periods).predictions.length) :
    (assemble_forecast_response forecast periods).lower_bound.getD i 0
        ≤ (assemble_forecast_response forecast periods).predictions.getD i 0 ∧
      (assemble_forecast_response forecast periods).predictions.getD i 0
        ≤ (assemble_forecast_response forecast periods).upper_bound.getD i 0 := by
  simp only [assemble_forecast_response, List.length_map] at hi ⊢
  set fut := forecast.drop (forecast.length - periods) with hfut
  have hr : fut[i] ∈ forecast := by
    exact List.drop_subset _ _ (List.getElem_mem hi)
  have hinv := h fut[i] hr
  rw [List.getD_eq_getElem _ _ (by simpa using hi),
    List.getD_eq_getElem _ _ (by simpa using hi),
    List.getD_eq_getElem _ _ (by simpa using hi)]
  simp only [List.getElem_map]
  exact ⟨round2_mono hinv.1, round2_mono hinv.2⟩

theorem forecast_bounds_invariant_witness :
    (assemble_forecast_response [⟨0, 12, 10, 15⟩] 1).lower_bound.getD 0 0
        ≤ (assemble_forecast_response [⟨0, 12, 10, 15⟩] 1).predictions.getD 0 0 ∧
      (assemble_forecast_response [⟨0, 12, 10, 15⟩] 1).predictions.getD 0 0
        ≤ (assemble_forecast_response [⟨0, 12, 10, 15⟩] 1).upper_bound.getD 0 0 :=
  forecast_bounds_invariant [⟨0, 12, 10, 15⟩] 1 (by norm_num) 0 (by norm_num [assemble_forecast_response])

theorem pctTail_pos (l : List ℚ) :
    ∀ a : ℚ, 0 < a → List.Chain (· < ·) a l →
      ∀ x : ℚ, some x ∈ pctTail a l → 0 < x := by
  induction l with
  | nil =>
    intro a _ _ x hx
    simp [pctTail] at hx
  | cons b rest ih =>
    intro a ha hchain x hx
    rw [List.chain_cons] at hchain
    obtain ⟨hab, hrest⟩ := hchain
    simp only [pctTail] at hx
    rw [if_neg (ne_of_gt ha)] at hx
    rcases List.mem_cons.mp hx with h | h
    · have hx' : x = (b - a) / a * 100 := (Option.some.inj h)
      have hq : 0 < (b - a) / a := div_pos (by linarith) ha
      rw [hx']
      linarith
    · exact ih b (ha.trans hab) hrest x h

theorem nanMean_pos (l : List (Option ℚ))
    (h : ∀ x : ℚ, some x ∈ l → 0 < x) {g : ℚ}
    (hg : nanMean l = some g) : 0 < g := by
  unfold nanMean at hg
  by_cases he : (l.filterMap id).isEmpty
  · rw [if_pos he] at hg
    exact absurd hg (by simp)
  · rw [if_neg he] at hg
    have hne : l.filterMap id ≠ [] := by
      simpa [List.isEmpty_iff] using he
    have hvpos : ∀ x ∈ l.filterMap id, 0 < x := by
      intro x hx
      rw [List.mem_filterMap] at hx
      obtain ⟨a, ha, hax⟩ := hx
      exact h x (by rw [← hax]; exact ha)
    have hsum : 0 < (l.filterMap id).sum := List.sum_pos _ hvpos hne
    have hlen : (0 : ℚ) < (l.filterMap id).length := by
      exact_mod_cast List.length_pos.mpr hne
    rw [← Option.some.inj hg]
    exact div_pos hsum hlen

theorem pctChange100_pos (s : List ℚ)
    (hmono : s.Chain' (· < ·)) (hpos : ∀ x ∈ s, 0 < x) :
    ∀ x : ℚ, some x ∈ pctChange100 s → 0 < x := by
  cases s with
  | nil =>
    intro x hx
    simp [pctChange100] at hx
  | cons a l =>
    intro x hx
    simp only [pctChange100] at hx
    rcases List.mem_cons.mp hx with h | h
    · exact absurd h (by simp)
    · exact pctTail_pos l a (hpos a (List.mem_cons_self a l)) hmono x h

/-- The date-column write is the identity on tables whose dates already
hold datetime values. -/
theorem date_write_id (rows : List SRow) : dateWrite rows = rows := by
  have h : (fun r : SRow => { r with date := to_datetime r.date }) = fun r => r := by
    funext r
    rfl
  simp [dateWrite, h]

theorem products_no_growth (rows : List SRow) (q : Insight → Bool) :
    (analyze_products_insights rows).countP
      (fun i => i.category == "Growth" && q i) = 0 := by
  simp only [analyze_products_insights]
  cases argmaxSnd (groupSum (rows.map fun r => (r.product_category, r.total_sales))) with
  | none => rfl
  | some top =>
    cases argminSnd (groupSum (rows.map fun r => (r.product_category, r.total_sales))) with
    | none => rfl
    | some bottom =>
      by_cases hr : ratioGt10 top.2 bottom.2 <;>
        simp [hr, List.countP_cons]

theorem regions_no_growth (rows : List SRow) (q : Insight → Bool) :
    (analyze_regions_insights rows).countP
      (fun i => i.category == "Growth" && q i) = 0 := by
  simp only [analyze_regions_insights]
  cases argmaxSnd (groupSum (rows.map fun r => (r.region, r.total_sales))) with
  | none => rfl
  | some top =>
    cases argminSnd (groupSum (rows.map fun r => (r.region, r.total_sales))) with
    | none => rfl
    | some bottom => simp [List.countP_cons]

theorem segments_no_growth (rows : List SRow) (q : Insight → Bool) :
    (analyze_customer_segments_insights rows).countP
      (fun i => i.category == "Growth" && q i) = 0 := by
  simp only [analyze_customer_segments_insights]
  cases argmaxSnd (groupSum (rows.map fun r => (r.customer_segment, r.total_sales))) with
  | none => rfl
  | some top => simp [List.countP_cons]

theorem forecast_no_growth (rows : List SRow) (fdf : Option (List ℚ))
    (q : Insight → Bool) :
    (analyze_forecast_insights rows fdf).countP
      (fun i => i.category == "Growth" && q i) = 0 := by
  simp only [analyze_forecast_insights]
  cases fdf with
  | none => rfl
  | some yhat =>
    dsimp only
    split_ifs <;> simp [List.countP_cons]

/-- Running the engine (constructed over a one-frame store) appends the
trend insights, the two seasonality insights, and then the read-only
analyses of the month-augmented working copy. -/
theorem construct_run_insights (rows : List SRow) (fdf : Option (List ℚ)) :
    (InsightEngine.generate_all_insights
        (InsightEngine.construct [rows] 0 fdf).1
        (InsightEngine.construct [rows] 0 fdf).2).2.insights
      = [] ++ analyze_trends_insights (dateWrite rows)
          ++ [⟨"Seasonality", "info", "Peak Sales Periods"⟩,
              ⟨"Seasonality", "info", "Low Sales Periods"⟩]
          ++ analyze_products_insights (monthWrite (dateWrite rows))
          ++ analyze_regions_insights (monthWrite (dateWrite rows))
          ++ analyze_customer_segments_insights (monthWrite (dateWrite rows))
          ++ analyze_forecast_insights (monthWrite (dateWrite rows)) fdf := rfl

/-- Growth-category insights originate only in `analyze_trends`: counting
them over a full engine run counts them over the trend insights. -/
theorem engine_countP_growth (rows : List SRow) (fdf : Option (List ℚ))
    (q : Insight → Bool) :
    (InsightEngine.generate_all_insights
        (InsightEngine.construct [rows] 0 fdf).1
        (InsightEngine.construct [rows] 0 fdf).2).2.insights.countP
      (fun i => i.category == "Growth" && q i)
      = (analyze_trends_insights rows).countP
          (fun i => i.category == "Growth" && q i) := by
  rw [construct_run_insights, date_write_id]
  simp only [List.countP_append, List.nil_append]
  rw [products_no_growth, regions_no_growth, segments_no_growth,
    forecast_no_growth]
  simp [List.countP_cons]

/-- C9 counterexample: the slow-growth table has a strictly increasing
monthly aggregate series, yet a full engine run emits no Growth-category
positive insight at all — average monthly growth of about 1 percent
clears neither the 5-percent nor the acceleration threshold. -/
theorem slow_growth_no_growth_insight :
    (monthlySeries slowGrowthTable).Chain' (· < ·) ∧
      ((InsightEngine.generate_all_insights
          (InsightEngine.construct [slowGrowthTable] 0 none).1
          (InsightEngine.construct [slowGrowthTable] 0 none).2).2.insights.countP
        (fun i => i.category == "Growth" && i.severity == "positive")) = 0 := by
  have hs : monthlySeries slowGrowthTable = [100, 101, 102, 103] := rfl
  constructor
  · rw [hs]
    norm_num [List.chain'_cons, List.chain'_singleton]
  · have he : analyze_trends_insights slowGrowthTable = [] := by
      have h1 : pctChange100 (monthlySeries slowGrowthTable)
          = [none, some 1, some (100/101), some (50/51)] := by
        rw [hs]
        norm_num [pctChange100, pctTail]
      have hfm : List.filterMap id [none, some (1:ℚ), some (100/101), some (50/51)]
          = [(1:ℚ), 100/101, 50/51] := by simp
      have hfm2 : List.filterMap id [some (1:ℚ), some (100/101), some (50/51)]
          = [(1:ℚ), 100/101, 50/51] := by simp
      have h2 : nanMean [none, some (1:ℚ), some (100/101), some (50/51)]
          = some (15301/15453) := by
        simp only [nanMean]
        rw [hfm]
        norm_num
      have h3 : nanMean [some (1:ℚ), some (100/101), some (50/51)]
          = some (15301/15453) := by
        simp only [nanMean]
        rw [hfm2]
        norm_num
      unfold analyze_trends_insights analyze_trends_insights_of
      rw [h1]
      norm_num [h2, h3, gtNaN, ltNaN, gtAddNaN]
    have hc := engine_countP_growth slowGrowthTable none
      (fun i => i.severity == "positive")
    rw [he] at hc
    simpa using hc

/-- On a strictly increasing, positive monthly series, the trend
analysis emits no declining-trend insight, and emits its positive
strong-growth insight whenever the average growth clears the 5-percent
threshold. -/
theorem trends_decl_and_pos (rows : List SRow)
    (hmono : (monthlySeries rows).Chain' (· < ·))
    (hpos : ∀ x ∈ monthlySeries rows, 0 < x) :
    (analyze_trends_insights rows).countP
        (fun i => i.category == "Growth" && i.title == "Declining Sales Trend") = 0 ∧
      (gtNaN (nanMean (pctChange100 (monthlySeries rows))) 5 = true →
        0 < (analyze_trends_insights rows).countP
          (fun i => i.category == "Growth" && i.severity == "positive")) := by
  have hall := pctChange100_pos (monthlySeries rows) hmono hpos
  unfold analyze_trends_insights analyze_trends_insights_of
  rcases ho : nanMean (pctChange100 (monthlySeries rows)) with _ | g
  · simp only [gtNaN, ltNaN, gtAddNaN, ho, List.countP_append]
    constructor
    · cases hrec : nanMean ((pctChange100 (monthlySeries rows)).drop
          ((pctChange100 (monthlySeries rows)).length - 3)) <;> simp
    · intro habs
      exact absurd habs (by simp)
  · have hgpos : 0 < g := nanMean_pos _ hall ho
    have hnotlt : ltNaN (some g) (-5) = false := by
      simp only [ltNaN, decide_eq_false_iff_not]
      linarith
    simp only [ho, hnotlt, Bool.false_eq_true, if_false, List.countP_append]
    constructor
    · cases h5 : gtNaN (some g) 5 <;>
        cases hacc : gtAddNaN (nanMean ((pctChange100 (monthlySeries rows)).drop
          ((pctChange100 (monthlySeries rows)).length - 3))) (some g) 5 <;>
        simp [h5, hacc]
    · intro h5
      rw [if_pos h5]
      cases hacc : gtAddNaN (nanMean ((pctChange100 (monthlySeries rows)).drop
          ((pctChange100 (monthlySeries rows)).length - 3))) (some g) 5 <;>
        simp [hacc]

/-- C9 (amended): on a sales table whose monthly aggregate series is
strictly increasing with positive values, a full engine run emits zero
"Declining Sales Trend" insights; a Growth-category positive insight is
additionally guaranteed whenever the average monthly growth exceeds the
5-percent threshold — which a strictly increasing series need not
clear. -/
theorem increasing_series_no_declining_insight (rows : List SRow)
    (hmono : (monthlySeries rows).Chain' (· < ·))
    (hpos : ∀ x ∈ monthlySeries rows, 0 < x) :
    ((InsightEngine.generate_all_insights
        (InsightEngine.construct [rows] 0 none).1
        (InsightEngine.construct [rows] 0 none).2).2.insights).countP
        (fun i => i.category == "Growth" && i.title == "Declining Sales Trend") = 0 ∧
      (gtNaN (nanMean (pctChange100 (monthlySeries rows))) 5 = true →
        0 < ((InsightEngine.generate_all_insights
            (InsightEngine.construct [rows] 0 none).1
            (InsightEngine.construct [rows] 0 none).2).2.insights).countP
          (fun i => i.category == "Growth" && i.severity == "positive")) := by
  have htr := trends_decl_and_pos rows hmono hpos
  constructor
  · exact (engine_countP_growth rows none
      (fun i => i.title == "Declining Sales Trend")).trans htr.1
  · intro h5
    exact lt_of_lt_of_eq (htr.2 h5)
      (engine_countP_growth rows none (fun i => i.severity == "positive")).symm

theorem increasing_series_no_declining_insight_witness :
    ((InsightEngine.generate_all_insights
        (InsightEngine.construct [strongGrowthTable] 0 none).1
        (InsightEngine.construct [strongGrowthTable] 0 none).2).2.insights).countP
        (fun i => i.category == "Growth" && i.title == "Declining Sales Trend") = 0 ∧
      (gtNaN (nanMean (pctChange100 (monthlySeries strongGrowthTable))) 5 = true →
        0 < ((InsightEngine.generate_all_insights
            (InsightEngine.construct [strongGrowthTable] 0 none).1
            (InsightEngine.construct [strongGrowthTable] 0 none).2).2.insights).countP
          (fun i => i.category == "Growth" && i.severity == "positive")) :=
  increasing_series_no_declining_insight strongGrowthTable
    (by norm_num [show monthlySeries strongGrowthTable = [100, 200, 400] from rfl,
      List.chain'_cons, List.chain'_singleton])
    (by norm_num [show monthlySeries strongGrowthTable = [100, 200, 400] from rfl])

/-- C10: `generate_all_insights` never mutates the caller's table — the
engine works on the copy allocated by `__init__`, and its in-place
column writes (date coercion, the added `month` column) land on that
copy, leaving the caller's frame unchanged in the store. -/
theorem generate_all_insights_frame (store : DFStore) (r : Nat)
    (fdf : Option (List ℚ)) (hr : r < store.length) :
    ((InsightEngine.generate_all_insights
        (InsightEngine.construct store r fdf).1
        (InsightEngine.construct store r fdf).2).1)[r]?
      = store[r]? := by
  have hne : store.length ≠ r := (Nat.ne_of_lt hr).symm
  simp only [InsightEngine.generate_all_insights, InsightEngine.construct,
    InsightEngine.analyze_trends, InsightEngine.analyze_seasonality]
  rw [List.getElem?_set_ne hne, List.getElem?_set_ne hne,
    List.getElem?_append_left hr]

theorem generate_all_insights_frame_witness :
    ((InsightEngine.generate_all_insights
        (InsightEngine.construct sampleStore 0 none).1
        (InsightEngine.construct sampleStore 0 none).2).1)[0]?
      = sampleStore[0]? :=
  generate_all_insights_frame sampleStore 0 none (by decide)

end SalesSpec
